import Mathlib

/-!
Shallow embedding of the ACQ-Reviewer backend (`src/backend/app.py`).

Strings from the Python program are modelled as `List Char`.  The outcomes of
the effectful primitives that `analyze_code` touches — writing the temporary
file, the two `subprocess.run` calls, and `os.unlink` — are packaged in an
`Env` record: a successful subprocess call yields captured stdout/stderr, a
raised exception is an `Except.error` carrying the exception's message
(Python's `str(e)`).  The filesystem is modelled as the list of existing
temporary-file names, threaded explicitly through `analyze_code` and the
HTTP handlers.
-/

namespace ACQReviewer

/-- Characters removed by Python's `str.strip()` with no argument
(ASCII whitespace as classified by `str.isspace` for the usual cases). -/
def pyIsSpace (c : Char) : Bool :=
  c == ' ' || c == '\t' || c == '\n' || c == '\r' || c == '\x0b' || c == '\x0c'

/-- Python's `s.strip()`: remove leading and trailing whitespace. -/
def pyStrip (s : List Char) : List Char :=
  ((s.dropWhile pyIsSpace).reverse.dropWhile pyIsSpace).reverse

/-- Python's `s.count(":")`: number of occurrences of the colon character. -/
def countColon (s : List Char) : Nat :=
  s.count ':'

/-- The captured output of a completed subprocess
(`result.stdout`, `result.stderr` of `subprocess.run(..., capture_output=True, text=True)`). -/
structure ToolResult where
  stdout : List Char
  stderr : List Char
  deriving Repr, DecidableEq

/-- A Python exception, reduced to its textual message `str(e)`. -/
abbrev PyErr := List Char

deriving instance DecidableEq for Except

/-- `run_tool` from `app.py`: on success return `result.stdout + result.stderr`;
a raised exception is caught and `str(e)` is returned instead. -/
def run_tool (r : Except PyErr ToolResult) : List Char :=
  match r with
  | .ok res => res.stdout ++ res.stderr
  | .error e => e

/-- Outcomes of the effectful steps of one `analyze_code` run:
the name `tempfile.NamedTemporaryFile` chooses, whether `temp.write` raises,
what each of the two `subprocess.run` calls does, and whether `os.unlink`
raises. -/
structure Env where
  tmpName : List Char
  writeResult : Except PyErr Unit
  pylintResult : Except PyErr ToolResult
  flake8Result : Except PyErr ToolResult
  unlinkResult : Except PyErr Unit
  deriving Repr, DecidableEq

/-- The `summary` object of the report built by `analyze_code`. -/
structure Summary where
  quality_score : Int
  total_issues : Nat
  verdict : String
  deriving Repr, DecidableEq

/-- The `details` object of the report built by `analyze_code`. -/
structure Details where
  pylint : List Char
  flake8 : List Char
  deriving Repr, DecidableEq

/-- The dictionary returned by `analyze_code`. -/
structure Report where
  summary : Summary
  details : Details
  deriving Repr, DecidableEq

/-- The filesystem, reduced to the list of existing temporary-file names. -/
abbrev FS := List (List Char)

/-- `analyze_code` from `app.py`, with the filesystem threaded explicitly.
The `with NamedTemporaryFile(delete=False)` block creates the file (it exists
even if the subsequent `temp.write` raises, since the file is opened first and
`delete=False`).  A raised exception from `temp.write` or `os.unlink`
propagates, abandoning the rest of the function; the two `run_tool` calls
never raise (they catch internally).  `os.unlink(file_path)` runs after both
tool invocations and the score/verdict computation, just before the return. -/
def analyze_code (env : Env) (code : List Char) (fs : FS) :
    Except PyErr Report × FS :=
  let fs1 := env.tmpName :: fs
  match env.writeResult with
  | .error e => (.error e, fs1)
  | .ok _ =>
    let pylint_out := run_tool env.pylintResult
    let flake8_out := run_tool env.flake8Result
    let issues := countColon pylint_out + countColon flake8_out
    let score : Int := max (100 - (issues : Int) * 10) 40
    let verdict := if score ≥ 80 then "Good Quality" else "Needs Improvement"
    match env.unlinkResult with
    | .error e => (.error e, fs1)
    | .ok _ =>
      (.ok { summary := { quality_score := score,
                          total_issues := issues,
                          verdict := verdict },
             details := { pylint := pyStrip pylint_out,
                          flake8 := pyStrip flake8_out } },
       fs1.erase env.tmpName)

/-- Body of a response from `POST /analyze`. -/
inductive Resp
  | errorNoCode
  | report (r : Report)
  deriving Repr, DecidableEq

/-- The `POST /analyze` handler from `app.py`.  `body` is the value of the
`"code"` key of the request's JSON body (`none` when the key is missing, in
which case `data.get("code", "")` yields the empty string).  An exception
escaping `analyze_code` escapes the handler as well. -/
def analyze (env : Env) (body : Option (List Char)) (fs : FS) :
    Except PyErr (Nat × Resp) × FS :=
  let code := body.getD []
  if pyStrip code = [] then (.ok (400, .errorNoCode), fs)
  else
    match analyze_code env code fs with
    | (.ok r, fs2) => (.ok (200, .report r), fs2)
    | (.error e, fs2) => (.error e, fs2)

/-- The `GET /health` handler from `app.py`: status 200 with the static
`{"status": "running"}` payload, and the filesystem untouched. -/
def health (fs : FS) : (Nat × String) × FS :=
  ((200, "running"), fs)

/-! ## Helper lemmas -/

theorem count_dropWhile_pyIsSpace (c : Char) (hc : pyIsSpace c = false)
    (l : List Char) : (l.dropWhile pyIsSpace).count c = l.count c := by
  induction l with
  | nil => rfl
  | cons a l ih =>
    by_cases ha : pyIsSpace a
    · have hac : a ≠ c := by
        intro h
        rw [h] at ha
        simp [hc] at ha
      rw [List.dropWhile_cons_of_pos ha, ih, List.count_cons_of_ne]
      intro h
      exact hac h.symm
    · rw [List.dropWhile_cons_of_neg ha]

theorem count_pyStrip (c : Char) (hc : pyIsSpace c = false) (l : List Char) :
    (pyStrip l).count c = l.count c := by
  unfold pyStrip
  rw [List.count_reverse, count_dropWhile_pyIsSpace c hc,
    List.count_reverse, count_dropWhile_pyIsSpace c hc]

theorem countColon_pyStrip (l : List Char) :
    countColon (pyStrip l) = countColon l := by
  unfold countColon
  exact count_pyStrip ':' (by decide) l

/-- Dissection of a successful `analyze_code` run: the report's fields in
terms of the two tool outputs, and the final filesystem. -/
theorem analyze_code_ok_shape (env : Env) (code : List Char) (fs : FS)
    (r : Report) (fs2 : FS) (h : analyze_code env code fs = (.ok r, fs2)) :
    r.summary.total_issues =
        countColon (run_tool env.pylintResult) + countColon (run_tool env.flake8Result) ∧
    r.summary.quality_score = max (100 - (r.summary.total_issues : Int) * 10) 40 ∧
    r.summary.verdict =
        (if r.summary.quality_score ≥ 80 then "Good Quality" else "Needs Improvement") ∧
    r.details.pylint = pyStrip (run_tool env.pylintResult) ∧
    r.details.flake8 = pyStrip (run_tool env.flake8Result) ∧
    fs2 = fs := by
  cases hw : env.writeResult with
  | error e => simp [analyze_code, hw] at h
  | ok u =>
    cases hu : env.unlinkResult with
    | error e => simp [analyze_code, hw, hu] at h
    | ok u2 =>
      simp only [analyze_code, hw, hu, List.erase_cons_head, Prod.mk.injEq,
        Except.ok.injEq] at h
      obtain ⟨hr, hfs⟩ := h
      subst hr
      exact ⟨rfl, rfl, rfl, rfl, rfl, hfs.symm⟩

/-! ## Concrete instances used by the witnesses -/

/-- Captured pylint output with one colon-bearing diagnostic. -/
def pylintResOK : ToolResult := { stdout := ['a', ':', 'b'], stderr := [] }

/-- Captured flake8 output with no diagnostics. -/
def flake8ResOK : ToolResult := { stdout := [], stderr := [] }

/-- A fully successful environment: pylint reports one colon-bearing
diagnostic, flake8 reports nothing. -/
def envOK : Env :=
  { tmpName := ['t']
    writeResult := .ok ()
    pylintResult := .ok pylintResOK
    flake8Result := .ok flake8ResOK
    unlinkResult := .ok () }

/-- The report `analyze_code` produces under `envOK`. -/
def reportOK : Report :=
  { summary := { quality_score := 90, total_issues := 1, verdict := "Good Quality" }
    details := { pylint := ['a', ':', 'b'], flake8 := [] } }

theorem analyze_code_envOK :
    analyze_code envOK ['x'] [] = (.ok reportOK, []) := by
  decide

/-- An environment in which the pylint subprocess raises. -/
def msgBoom : PyErr := ['b', 'o', 'o', 'm']

/-- Environment whose pylint invocation fails with message `msgBoom`. -/
def envFailPy : Env :=
  { tmpName := ['u']
    writeResult := .ok ()
    pylintResult := .error msgBoom
    flake8Result := .ok { stdout := [], stderr := [] }
    unlinkResult := .ok () }

/-- Environment observationally equal to `envOK` at the tool-output level:
same combined output strings, but split differently across stdout/stderr and
with a different temporary-file name. -/
def envOK2 : Env :=
  { tmpName := ['u']
    writeResult := .ok ()
    pylintResult := .ok { stdout := [], stderr := ['a', ':', 'b'] }
    flake8Result := .ok { stdout := [], stderr := [] }
    unlinkResult := .ok () }

/-! ## Claim theorems -/

/-- C1: for every non-empty code string, a report produced by `analyze_code`
has `quality_score = max (100 - 10 * total_issues) 40`; hence the score is an
integer in `[40, 100]`, equal to `100 - 10 * total_issues` whenever that is
at least 40 and equal to 40 otherwise. -/
theorem C1_quality_score (env : Env) (code : List Char) (fs : FS)
    (r : Report) (fs2 : FS) (hcode : code ≠ [])
    (h : analyze_code env code fs = (.ok r, fs2)) :
    r.summary.quality_score = max (100 - 10 * (r.summary.total_issues : Int)) 40 ∧
    40 ≤ r.summary.quality_score ∧ r.summary.quality_score ≤ 100 ∧
    (40 ≤ 100 - 10 * (r.summary.total_issues : Int) →
      r.summary.quality_score = 100 - 10 * (r.summary.total_issues : Int)) ∧
    (100 - 10 * (r.summary.total_issues : Int) < 40 →
      r.summary.quality_score = 40) := by
  obtain ⟨-, hscore, -, -, -, -⟩ := analyze_code_ok_shape env code fs r fs2 h
  rw [hscore]
  omega

theorem C1_quality_score_witness :
    (['x'] : List Char) ≠ [] ∧
    (reportOK.summary.quality_score =
        max (100 - 10 * (reportOK.summary.total_issues : Int)) 40 ∧
      40 ≤ reportOK.summary.quality_score ∧ reportOK.summary.quality_score ≤ 100 ∧
      (40 ≤ 100 - 10 * (reportOK.summary.total_issues : Int) →
        reportOK.summary.quality_score =
          100 - 10 * (reportOK.summary.total_issues : Int)) ∧
      (100 - 10 * (reportOK.summary.total_issues : Int) < 40 →
        reportOK.summary.quality_score = 40)) :=
  ⟨by decide, C1_quality_score envOK ['x'] [] reportOK [] (by decide) analyze_code_envOK⟩

/-- C2: for every report produced by `analyze_code`, the verdict is
"Good Quality" exactly when `quality_score ≥ 80`, otherwise it is
"Needs Improvement", and no other verdict value occurs. -/
theorem C2_verdict (env : Env) (code : List Char) (fs : FS)
    (r : Report) (fs2 : FS)
    (h : analyze_code env code fs = (.ok r, fs2)) :
    (r.summary.verdict = "Good Quality" ↔ 80 ≤ r.summary.quality_score) ∧
    (¬ 80 ≤ r.summary.quality_score → r.summary.verdict = "Needs Improvement") ∧
    (r.summary.verdict = "Good Quality" ∨ r.summary.verdict = "Needs Improvement") := by
  obtain ⟨-, -, hv, -, -, -⟩ := analyze_code_ok_shape env code fs r fs2 h
  by_cases h80 : 80 ≤ r.summary.quality_score
  · rw [hv, if_pos h80]
    exact ⟨⟨fun _ => h80, fun _ => rfl⟩, fun hc => absurd h80 hc, .inl rfl⟩
  · rw [hv, if_neg h80]
    exact ⟨⟨fun he => absurd he (by decide), fun hs => absurd hs h80⟩,
      fun _ => rfl, .inr rfl⟩

theorem C2_verdict_witness :
    (reportOK.summary.verdict = "Good Quality" ↔
        80 ≤ reportOK.summary.quality_score) ∧
    (¬ 80 ≤ reportOK.summary.quality_score →
        reportOK.summary.verdict = "Needs Improvement") ∧
    (reportOK.summary.verdict = "Good Quality" ∨
        reportOK.summary.verdict = "Needs Improvement") :=
  C2_verdict envOK ['x'] [] reportOK [] analyze_code_envOK

/-- C3: in every report produced by `analyze_code`, `total_issues` equals the
sum of the colon counts of the two strings stored under `details`
(stripping only removes leading/trailing whitespace, so it preserves the
colon count). -/
theorem C3_total_issues (env : Env) (code : List Char) (fs : FS)
    (r : Report) (fs2 : FS)
    (h : analyze_code env code fs = (.ok r, fs2)) :
    r.summary.total_issues = countColon r.details.pylint + countColon r.details.flake8 := by
  obtain ⟨hti, -, -, hdp, hdf, -⟩ := analyze_code_ok_shape env code fs r fs2 h
  rw [hti, hdp, hdf, countColon_pyStrip, countColon_pyStrip]

theorem C3_total_issues_witness :
    reportOK.summary.total_issues =
      countColon reportOK.details.pylint + countColon reportOK.details.flake8 :=
  C3_total_issues envOK ['x'] [] reportOK [] analyze_code_envOK

/-- C4: a `POST /analyze` request whose code is missing, empty or
whitespace-only after trimming gets status 400 with the "No code provided"
error body, the filesystem is untouched (no temporary file is created) and
the Report Service is never invoked (the response does not depend on the
environment); a request with non-empty trimmed code invokes `analyze_code`
and is answered with status 200 and the serialized report. -/
theorem C4_analyze_endpoint (env : Env) (body : Option (List Char)) (fs : FS) :
    (pyStrip (body.getD []) = [] →
      analyze env body fs = (.ok (400, .errorNoCode), fs) ∧
      ∀ env2 : Env, analyze env2 body fs = analyze env body fs) ∧
    (pyStrip (body.getD []) ≠ [] →
      env.writeResult = .ok () → env.unlinkResult = .ok () →
      ∃ r fs2, analyze_code env (body.getD []) fs = (.ok r, fs2) ∧
        analyze env body fs = (.ok (200, .report r), fs2)) := by
  constructor
  · intro he
    exact ⟨by simp [analyze, he], fun env2 => by simp [analyze, he]⟩
  · intro hne hw hu
    rcases hac : analyze_code env (body.getD []) fs with ⟨res, fs2⟩
    cases res with
    | ok r =>
      exact ⟨r, fs2, rfl, by simp [analyze, hne, hac]⟩
    | error e =>
      rw [analyze_code] at hac
      simp [hw, hu] at hac

theorem C4_analyze_endpoint_witness :
    ∃ r fs2, analyze_code envOK ['x'] [] = (.ok r, fs2) ∧
      analyze envOK (some ['x']) [] = (.ok (200, .report r), fs2) :=
  (C4_analyze_endpoint envOK (some ['x']) []).2 (by decide) rfl rfl

/-- C5: a subprocess failure inside `run_tool` is caught per-tool: the
exception's message becomes that tool's output string, `analyze_code` behaves
exactly as if the tool had printed that message, and the failure never
propagates — with a successful write and unlink, `analyze_code` always
returns a report. -/
theorem C5_tool_failure (m : PyErr) :
    run_tool (.error m) = m ∧
    (∀ (env : Env) (code : List Char) (fs : FS), env.pylintResult = .error m →
      analyze_code env code fs =
        analyze_code { env with pylintResult := .ok { stdout := [], stderr := m } } code fs) ∧
    (∀ (env : Env) (code : List Char) (fs : FS), env.flake8Result = .error m →
      analyze_code env code fs =
        analyze_code { env with flake8Result := .ok { stdout := [], stderr := m } } code fs) ∧
    (∀ (env : Env) (code : List Char) (fs : FS),
      env.writeResult = .ok () → env.unlinkResult = .ok () →
      ∃ r : Report, (analyze_code env code fs).1 = .ok r) := by
  refine ⟨rfl, ?_, ?_, ?_⟩
  · intro env code fs h
    simp only [analyze_code, run_tool, h, List.nil_append]
  · intro env code fs h
    simp only [analyze_code, run_tool, h, List.nil_append]
  · intro env code fs hw hu
    rcases hres : analyze_code env code fs with ⟨res, fs2⟩
    cases res with
    | ok r => exact ⟨r, rfl⟩
    | error e =>
      rw [analyze_code] at hres
      simp [hw, hu] at hres

theorem C5_tool_failure_witness :
    analyze_code envFailPy ['x'] [] =
      analyze_code
        { envFailPy with pylintResult := .ok { stdout := [], stderr := msgBoom } }
        ['x'] [] :=
  (C5_tool_failure msgBoom).2.1 envFailPy ['x'] [] rfl

/-- C6: on a successful `analyze_code` run the temporary file created at the
start is gone at the end (the final filesystem equals the initial one); if an
exception escapes between creation and the unlink step, the deletion is
skipped and the file is still present in the final filesystem. -/
theorem C6_temp_file (env : Env) (code : List Char) (fs : FS) :
    (∀ r fs2, analyze_code env code fs = (.ok r, fs2) →
      fs2 = fs ∧ (env.tmpName ∉ fs → env.tmpName ∉ fs2)) ∧
    (∀ e fs2, analyze_code env code fs = (.error e, fs2) →
      fs2 = env.tmpName :: fs ∧ env.tmpName ∈ fs2) := by
  constructor
  · intro r fs2 h
    obtain ⟨-, -, -, -, -, hfs⟩ := analyze_code_ok_shape env code fs r fs2 h
    subst hfs
    exact ⟨rfl, fun hn => hn⟩
  · intro e fs2 h
    cases hw : env.writeResult with
    | error e2 =>
      simp only [analyze_code, hw, Prod.mk.injEq, Except.error.injEq] at h
      obtain ⟨-, hfs⟩ := h
      subst hfs
      exact ⟨rfl, List.mem_cons_self _ _⟩
    | ok u =>
      cases hu : env.unlinkResult with
      | error e2 =>
        simp only [analyze_code, hw, hu, Prod.mk.injEq, Except.error.injEq] at h
        obtain ⟨-, hfs⟩ := h
        subst hfs
        exact ⟨rfl, List.mem_cons_self _ _⟩
      | ok u2 =>
        simp [analyze_code, hw, hu] at h

theorem C6_temp_file_witness :
    ([] : FS) = [] ∧ (envOK.tmpName ∉ ([] : FS) → envOK.tmpName ∉ ([] : FS)) :=
  (C6_temp_file envOK ['x'] []).1 reportOK [] analyze_code_envOK

/-- C7: `GET /health` always answers status 200 with the static "running"
payload, leaves the filesystem unchanged and depends on no state. -/
theorem C7_health : ∀ fs : FS, health fs = ((200, "running"), fs) :=
  fun _ => rfl

/-- C8: each tool's output string is its stdout followed by its stderr, and
the report's `details` fields are exactly these strings stripped of
leading/trailing whitespace and otherwise unchanged. -/
theorem C8_details (env : Env) (code : List Char) (fs : FS)
    (r : Report) (fs2 : FS) (p f : ToolResult)
    (hp : env.pylintResult = .ok p) (hf : env.flake8Result = .ok f)
    (h : analyze_code env code fs = (.ok r, fs2)) :
    r.details.pylint = pyStrip (p.stdout ++ p.stderr) ∧
    r.details.flake8 = pyStrip (f.stdout ++ f.stderr) := by
  obtain ⟨-, -, -, hdp, hdf, -⟩ := analyze_code_ok_shape env code fs r fs2 h
  rw [hdp, hdf, hp, hf]
  exact ⟨rfl, rfl⟩

theorem C8_details_witness :
    reportOK.details.pylint = pyStrip (pylintResOK.stdout ++ pylintResOK.stderr) ∧
    reportOK.details.flake8 = pyStrip (flake8ResOK.stdout ++ flake8ResOK.stderr) :=
  C8_details envOK ['x'] [] reportOK [] pylintResOK flake8ResOK rfl rfl
    analyze_code_envOK

/-- C9: the quality score of every report produced by `analyze_code` is one of
40, 50, 60, 70, 80, 90, 100 — always a multiple of ten, never an intermediate
value. -/
theorem C9_score_multiple_of_ten (env : Env) (code : List Char) (fs : FS)
    (r : Report) (fs2 : FS)
    (h : analyze_code env code fs = (.ok r, fs2)) :
    r.summary.quality_score ∈ ([40, 50, 60, 70, 80, 90, 100] : List Int) := by
  obtain ⟨-, hscore, -, -, -, -⟩ := analyze_code_ok_shape env code fs r fs2 h
  rw [hscore]
  simp only [List.mem_cons, List.not_mem_nil, or_false]
  omega

theorem C9_score_multiple_of_ten_witness :
    reportOK.summary.quality_score ∈ ([40, 50, 60, 70, 80, 90, 100] : List Int) :=
  C9_score_multiple_of_ten envOK ['x'] [] reportOK [] analyze_code_envOK

/-- C10: the report computation is deterministic in the tool outputs — two
runs whose tool invocations yield the same combined output strings (and whose
write/unlink steps succeed) produce identical reports in every field,
whatever the temporary-file name or prior filesystem. -/
theorem C10_deterministic (env1 env2 : Env) (code : List Char) (fsA fsB : FS)
    (hw1 : env1.writeResult = .ok ()) (hw2 : env2.writeResult = .ok ())
    (hu1 : env1.unlinkResult = .ok ()) (hu2 : env2.unlinkResult = .ok ())
    (hpy : run_tool env1.pylintResult = run_tool env2.pylintResult)
    (hfl : run_tool env1.flake8Result = run_tool env2.flake8Result) :
    (analyze_code env1 code fsA).1 = (analyze_code env2 code fsB).1 := by
  simp only [analyze_code, hw1, hw2, hu1, hu2, hpy, hfl]

theorem C10_deterministic_witness :
    (analyze_code envOK ['x'] []).1 = (analyze_code envOK2 ['x'] [['z']]).1 :=
  C10_deterministic envOK envOK2 ['x'] [] [['z']] rfl rfl rfl rfl
    (by decide) (by decide)

end ACQReviewer
